import Mathlib

/-!
Shallow embedding of the `RetryAgentWorker` retry loop from the notebook
"Building a Custom Agent" (a custom agent worker that adds a retry layer on
top of a `RouterQueryEngine`).

The embedded code is the `RetryAgentWorker` class:
its `__init__` tool validation, `_initialize_state`, `_run_step`,
`_finalize_task`, the `get_chat_prompt_template` helper and the
`ResponseEval` output schema.  The Router and the LLM critique program are
external collaborators; they enter the embedding as oracle functions passed
to each step.
-/

/-- Message roles used by the chat prompt template (`MessageRole`). -/
inductive MessageRole where
  | system
  | user
  | assistant
deriving DecidableEq, Repr

/-- A chat message: a role together with its text content (`ChatMessage`). -/
structure ChatMessage where
  role : MessageRole
  content : String
deriving DecidableEq, Repr

/-- Embeds `get_chat_prompt_template`: a system message holding the system
prompt, followed by one chat message per transcript entry, where an entry
whose first component is the string "user" becomes a USER message and any
other entry becomes an ASSISTANT message. -/
def get_chat_prompt_template (system_prompt : String)
    (current_reasoning : List (String × String)) : List ChatMessage :=
  ChatMessage.mk MessageRole.system system_prompt ::
    current_reasoning.map (fun raw_msg =>
      if raw_msg.1 = "user" then ChatMessage.mk MessageRole.user raw_msg.2
      else ChatMessage.mk MessageRole.assistant raw_msg.2)

/-- Embeds the `ResponseEval` pydantic model: the critique of one
question/response pair. -/
structure ResponseEval where
  has_error : Bool
  new_question : String
  explanation : String
deriving DecidableEq, Repr

/-- Outcome of the router's selected query-engine handler on one question:
either a usable answer text or a handler failure carrying an error text. -/
inductive HandlerResult where
  | ok (answer : String)
  | failure (err : String)
deriving DecidableEq, Repr

/-- A Router maps a question to its selected handler's outcome. -/
def Router : Type := String → HandlerResult

/-- Modelled from the spec: `RouterQueryEngine.query` itself is repository
code that is not under src (only its notebook caller is).  Per the spec, when
the selected handler fails, "that failure is surfaced as a normal error
answer and fed back to the Critic like any other answer", so the text the
router yields is the handler's answer on success and an error answer text on
failure. -/
def router_answer (router : Router) (question : String) : String :=
  match router question with
  | HandlerResult.ok a => a
  | HandlerResult.failure err => "Error: " ++ err

/-- The critique oracle: the `LLMTextCompletionProgram` built over the chat
prompt template and constrained to `ResponseEval`, invoked with
`query_str` and `response_str`. -/
def Critic : Type := List ChatMessage → String → String → ResponseEval

/-- The part of a `Task` the worker reads: its input question. -/
structure AgentTask where
  input : String
deriving DecidableEq, Repr

/-- The task-state dict built by `_initialize_state` and mutated by
`_run_step`: the "count" entry, the "current_reasoning" transcript of
(role, text) pairs, and the "new_input" entry, where `none` models the key
being absent from the dict. -/
structure TaskState where
  count : Int
  current_reasoning : List (String × String)
  new_input : Option String
deriving DecidableEq, Repr

/-- Tools passed to the worker: query engine tools, or any other kind of
`BaseTool`, identified by their metadata name. -/
inductive BaseTool where
  | queryEngineTool (name : String)
  | otherTool (name : String)
deriving DecidableEq, Repr

/-- The metadata name of a tool (`tool.metadata.name`). -/
def tool_name : BaseTool → String
  | BaseTool.queryEngineTool n => n
  | BaseTool.otherTool n => n

/-- Embeds `isinstance(tool, QueryEngineTool)`. -/
def is_query_engine_tool : BaseTool → Bool
  | BaseTool.queryEngineTool _ => true
  | BaseTool.otherTool _ => false

/-- The `RetryAgentWorker` configuration: its `prompt_str` and
`max_iterations` fields, the inherited `verbose` flag, and the tool list its
private `_router_query_engine` was built over. -/
structure RetryAgentWorker where
  prompt_str : String
  max_iterations : Int
  verbose : Bool
  router_tools : List BaseTool
deriving DecidableEq, Repr

/-- Embeds the validation loop of `RetryAgentWorker.__init__`: walk the tool
list and raise ValueError at the first tool that is not a query engine
tool. -/
def validate_tools : List BaseTool → Except String Unit
  | [] => Except.ok ()
  | t :: ts =>
      if is_query_engine_tool t then validate_tools ts
      else Except.error ("Tool " ++ tool_name t ++ " is not a query engine tool.")

/-- Embeds `RetryAgentWorker.__init__`: validate that all tools are query
engine tools (ValueError otherwise), then build the router query engine over
exactly the given tool list and construct the worker. -/
def retry_agent_worker_init (tools : List BaseTool) (prompt_str : String)
    (max_iterations : Int) (verbose : Bool) : Except String RetryAgentWorker :=
  match validate_tools tools with
  | Except.error e => Except.error e
  | Except.ok _ => Except.ok (RetryAgentWorker.mk prompt_str max_iterations verbose tools)

/-- Embeds `RetryAgentWorker._initialize_state`: a dict with "count" set to 0
and "current_reasoning" set to the empty list (no "new_input" key). -/
def init_state (_self : RetryAgentWorker) (_task : AgentTask) : TaskState :=
  TaskState.mk 0 [] none

/-- Embeds the input-resolution prelude of `_run_step`: the explicit override
when one is supplied; otherwise `task.input` when the "new_input" key is
absent from the state; otherwise the stored "new_input" value. -/
def resolve_input (state : TaskState) (task : AgentTask) (input : Option String) : String :=
  match input with
  | some i => i
  | none =>
      match state.new_input with
      | none => task.input
      | some s => s

/-- The response object returned by `_run_step` (`AgentChatResponse`). -/
structure AgentChatResponse where
  response : String
deriving DecidableEq, Repr

/-- The critique computed inside `_run_step`: the LLM program run over the
chat prompt built from `prompt_str` and the extended transcript, with the
resolved question as `query_str` and the router's answer as
`response_str`. -/
def step_eval (w : RetryAgentWorker) (router : Router) (critic : Critic)
    (state : TaskState) (task : AgentTask) (input : Option String) : ResponseEval :=
  let new_input := resolve_input state task input
  let response := router_answer router new_input
  let reasoning := state.current_reasoning ++ [("user", new_input), ("assistant", response)]
  critic (get_chat_prompt_template w.prompt_str reasoning) new_input response

/-- Embeds `RetryAgentWorker._run_step`: resolve the question, query the
router, extend "current_reasoning" with the ("user", question) and
("assistant", answer) pairs, run the critique program, let `is_done` be true
exactly when `has_error` is false, overwrite "new_input" with the suggested
question, and return the chat response together with `is_done` and the
updated state. -/
def run_step (w : RetryAgentWorker) (router : Router) (critic : Critic)
    (state : TaskState) (task : AgentTask) (input : Option String) :
    (AgentChatResponse × Bool) × TaskState :=
  let new_input := resolve_input state task input
  let response := router_answer router new_input
  let reasoning := state.current_reasoning ++ [("user", new_input), ("assistant", response)]
  let response_eval := critic (get_chat_prompt_template w.prompt_str reasoning) new_input response
  let is_done := if response_eval.has_error = false then true else false
  ((AgentChatResponse.mk response, is_done),
    TaskState.mk state.count reasoning (some response_eval.new_question))

/-- Embeds `RetryAgentWorker._finalize_task`: it does nothing and leaves the
state unchanged. -/
def finalize_task (_self : RetryAgentWorker) (state : TaskState) : TaskState :=
  state

/-- The retry loop on one task: repeated `_run_step` invocations with no
override until `is_done`, attempting at most `fuel` steps.  Returns the final
state, whether `is_done` was reached, and the number of `_run_step` (hence
Router) invocations performed. -/
def run_loop (w : RetryAgentWorker) (router : Router) (critic : Critic) (task : AgentTask) :
    Nat → TaskState → TaskState × Bool × Nat
  | 0, state => (state, false, 0)
  | Nat.succ fuel, state =>
      let out := run_step w router critic state task none
      if out.1.2 then (out.2, true, 1)
      else
        let rest := run_loop w router critic task fuel out.2
        (rest.1, rest.2.1, rest.2.2 + 1)

/-- States reachable from `_initialize_state` by completed `_run_step`
invocations, indexed by how many invocations completed; each invocation may
carry an arbitrary override input. -/
inductive ReachableN (w : RetryAgentWorker) (router : Router) (critic : Critic)
    (task : AgentTask) : Nat → TaskState → Prop where
  | init : ReachableN w router critic task 0 (init_state w task)
  | step {k : Nat} {st : TaskState} (input : Option String) :
      ReachableN w router critic task k st →
      ReachableN w router critic task (k + 1) (run_step w router critic st task input).2

/-- `_run_step` leaves the "count" entry of the state unchanged. -/
theorem run_step_count (w : RetryAgentWorker) (router : Router) (critic : Critic)
    (st : TaskState) (task : AgentTask) (input : Option String) :
    (run_step w router critic st task input).2.count = st.count := rfl

/-- Every state reachable from `_initialize_state` has "count" equal to 0:
no operation ever modifies it. -/
theorem reachable_count_zero {w : RetryAgentWorker} {router : Router} {critic : Critic}
    {task : AgentTask} {k : Nat} {st : TaskState}
    (h : ReachableN w router critic task k st) : st.count = 0 := by
  induction h with
  | init => rfl
  | step input _ ih => exact ih

/-- `_run_step` extends the transcript by exactly the ("user", question) and
("assistant", answer) pair for the resolved question. -/
theorem run_step_reasoning (w : RetryAgentWorker) (router : Router) (critic : Critic)
    (st : TaskState) (task : AgentTask) (input : Option String) :
    (run_step w router critic st task input).2.current_reasoning =
      st.current_reasoning ++
        [("user", resolve_input st task input),
          ("assistant", router_answer router (resolve_input st task input))] := rfl

/-- The `is_done` flag returned by `_run_step` is the `has_error` test on the
step's critique. -/
theorem run_step_is_done (w : RetryAgentWorker) (router : Router) (critic : Critic)
    (st : TaskState) (task : AgentTask) (input : Option String) :
    (run_step w router critic st task input).1.2 =
      (if (step_eval w router critic st task input).has_error = false then true
        else false) := rfl

/-- `validate_tools` succeeds exactly when every tool is a query engine tool. -/
theorem validate_tools_ok_iff (tools : List BaseTool) :
    validate_tools tools = Except.ok () ↔
      ∀ t ∈ tools, is_query_engine_tool t = true := by
  induction tools with
  | nil => simp [validate_tools]
  | cons t ts ih =>
      cases hqet : is_query_engine_tool t with
      | true => simp [validate_tools, hqet, ih]
      | false => simp [validate_tools, hqet]

/-- C1: Evaluation at the failing input.  With `max_iterations` configured to 1
and a critic that reports an error on every iteration, the retry loop performs
2 Router invocations across 2 `_run_step` invocations and never reaches
`is_done`: `_run_step` reads neither `max_iterations` nor the "count" entry, so
nothing limits the loop to N Router invocations. -/
theorem c1_router_calls_exceed_budget :
    (RetryAgentWorker.mk "p" 1 false []).max_iterations = 1 ∧
    (run_loop (RetryAgentWorker.mk "p" 1 false []) (fun _ => HandlerResult.ok "ans")
        (fun _ _ _ => ResponseEval.mk true "again" "e") (AgentTask.mk "q") 2
        (init_state (RetryAgentWorker.mk "p" 1 false []) (AgentTask.mk "q"))).2 =
      (false, 2) :=
  ⟨rfl, rfl⟩

/-- C2: Evaluation at the failing input.  With `max_iterations` 1 and the
critic reporting `has_error = true` on iteration 1, the loop does not stop
after 1 iteration: `_run_step` returns `is_done = false`, no exhaustion is
reported at the budget, and a second iteration runs. -/
theorem c2_no_termination_at_budget :
    (run_step (RetryAgentWorker.mk "p" 1 false []) (fun _ => HandlerResult.ok "ans")
        (fun _ _ _ => ResponseEval.mk true "again" "e")
        (init_state (RetryAgentWorker.mk "p" 1 false []) (AgentTask.mk "q"))
        (AgentTask.mk "q") none).1.2 = false ∧
    (run_loop (RetryAgentWorker.mk "p" 1 false []) (fun _ => HandlerResult.ok "ans")
        (fun _ _ _ => ResponseEval.mk true "again" "e") (AgentTask.mk "q") 2
        (init_state (RetryAgentWorker.mk "p" 1 false []) (AgentTask.mk "q"))).2.1 =
      false :=
  ⟨rfl, rfl⟩

/-- C3: If the critique of an iteration has `has_error = false`, `_run_step`
returns `is_done = true` (the loop terminates there) and the returned response
is the string of that iteration's Router answer; if `has_error = true` it
returns `is_done = false`. -/
theorem c3_run_step_done_on_no_error (w : RetryAgentWorker) (router : Router)
    (critic : Critic) (st : TaskState) (task : AgentTask) (input : Option String) :
    ((step_eval w router critic st task input).has_error = false →
      (run_step w router critic st task input).1.2 = true ∧
        (run_step w router critic st task input).1.1.response =
          router_answer router (resolve_input st task input)) ∧
    ((step_eval w router critic st task input).has_error = true →
      (run_step w router critic st task input).1.2 = false) := by
  refine ⟨fun h => ⟨?_, rfl⟩, fun h => ?_⟩
  · rw [run_step_is_done, h]
    rfl
  · rw [run_step_is_done, h]
    rfl

/-- C3 witness: at a concrete critique with no error, `_run_step` reports done
and returns the router's answer. -/
theorem c3_run_step_done_on_no_error_witness :
    (run_step (RetryAgentWorker.mk "p" 10 false []) (fun _ => HandlerResult.ok "ans")
        (fun _ _ _ => ResponseEval.mk false "" "") (TaskState.mk 0 [] none)
        (AgentTask.mk "q") none).1.2 = true ∧
    (run_step (RetryAgentWorker.mk "p" 10 false []) (fun _ => HandlerResult.ok "ans")
        (fun _ _ _ => ResponseEval.mk false "" "") (TaskState.mk 0 [] none)
        (AgentTask.mk "q") none).1.1.response =
      router_answer (fun _ => HandlerResult.ok "ans")
        (resolve_input (TaskState.mk 0 [] none) (AgentTask.mk "q") none) :=
  (c3_run_step_done_on_no_error (RetryAgentWorker.mk "p" 10 false [])
    (fun _ => HandlerResult.ok "ans") (fun _ _ _ => ResponseEval.mk false "" "")
    (TaskState.mk 0 [] none) (AgentTask.mk "q") none).1 rfl

/-- C4: After k completed `_run_step` invocations the transcript has exactly
2k entries that strictly alternate roles: entry 2i is a ("user", question)
pair and entry 2i+1 is an ("assistant", answer) pair. -/
theorem c4_transcript_alternates (w : RetryAgentWorker) (router : Router)
    (critic : Critic) (task : AgentTask) (k : Nat) (st : TaskState)
    (h : ReachableN w router critic task k st) :
    st.current_reasoning.length = 2 * k ∧
    ∀ i : Nat, i < k →
      (st.current_reasoning.getD (2 * i) ("", "")).1 = "user" ∧
      (st.current_reasoning.getD (2 * i + 1) ("", "")).1 = "assistant" := by
  induction h with
  | init => exact ⟨rfl, fun i hi => absurd hi (Nat.not_lt_zero i)⟩
  | @step k' st' input hr ih =>
      obtain ⟨hlen, halt⟩ := ih
      rw [run_step_reasoning]
      constructor
      · have h2 : ([("user", resolve_input st' task input),
            ("assistant", router_answer router (resolve_input st' task input))] :
            List (String × String)).length = 2 := rfl
        rw [List.length_append, hlen, h2]
        omega
      · intro i hi
        rcases Nat.lt_succ_iff_lt_or_eq.mp hi with hik | hik
        · have h2i : 2 * i < st'.current_reasoning.length := by omega
          have h2i1 : 2 * i + 1 < st'.current_reasoning.length := by omega
          rw [List.getD_append _ _ _ _ h2i, List.getD_append _ _ _ _ h2i1]
          exact halt i hik
        · subst hik
          have hle : st'.current_reasoning.length ≤ 2 * i := by omega
          have hle1 : st'.current_reasoning.length ≤ 2 * i + 1 := by omega
          rw [List.getD_append_right _ _ _ _ hle, List.getD_append_right _ _ _ _ hle1]
          have e0 : 2 * i - st'.current_reasoning.length = 0 := by omega
          have e1 : 2 * i + 1 - st'.current_reasoning.length = 1 := by omega
          rw [e0, e1]
          exact ⟨rfl, rfl⟩

/-- C4 witness: after one completed step from the initial state, the
transcript has exactly 2 entries, entry 0 a user pair and entry 1 an
assistant pair. -/
theorem c4_transcript_alternates_witness :
    (run_step (RetryAgentWorker.mk "p" 10 false []) (fun _ => HandlerResult.ok "ans")
        (fun _ _ _ => ResponseEval.mk false "" "")
        (init_state (RetryAgentWorker.mk "p" 10 false []) (AgentTask.mk "q"))
        (AgentTask.mk "q") none).2.current_reasoning.length = 2 * 1 ∧
    ((run_step (RetryAgentWorker.mk "p" 10 false []) (fun _ => HandlerResult.ok "ans")
        (fun _ _ _ => ResponseEval.mk false "" "")
        (init_state (RetryAgentWorker.mk "p" 10 false []) (AgentTask.mk "q"))
        (AgentTask.mk "q") none).2.current_reasoning.getD (2 * 0) ("", "")).1 = "user" ∧
    ((run_step (RetryAgentWorker.mk "p" 10 false []) (fun _ => HandlerResult.ok "ans")
        (fun _ _ _ => ResponseEval.mk false "" "")
        (init_state (RetryAgentWorker.mk "p" 10 false []) (AgentTask.mk "q"))
        (AgentTask.mk "q") none).2.current_reasoning.getD (2 * 0 + 1) ("", "")).1 =
      "assistant" := by
  obtain ⟨h1, h2⟩ := c4_transcript_alternates (RetryAgentWorker.mk "p" 10 false [])
    (fun _ => HandlerResult.ok "ans") (fun _ _ _ => ResponseEval.mk false "" "")
    (AgentTask.mk "q") 1 _ (ReachableN.step none ReachableN.init)
  exact ⟨h1, (h2 0 (by decide)).1, (h2 0 (by decide)).2⟩


/-- C5: The question passed to the Router is resolved with priority: the
explicit override input when one is supplied; otherwise the critic-suggested
rewrite stored in "new_input" when present; otherwise the task's original
input.  The override affects only that one step: after the step, "new_input"
holds the critique's suggestion, so a following step with no override
resolves to that suggestion, not to the override. -/
theorem c5_input_priority (w : RetryAgentWorker) (router : Router) (critic : Critic)
    (st : TaskState) (task : AgentTask) (input : Option String) :
    (∀ s, input = some s → resolve_input st task input = s) ∧
    (input = none → st.new_input = none → resolve_input st task input = task.input) ∧
    (∀ s, input = none → st.new_input = some s → resolve_input st task input = s) ∧
    resolve_input (run_step w router critic st task input).2 task none =
      (step_eval w router critic st task input).new_question := by
  refine ⟨fun s hs => ?_, fun h1 h2 => ?_, fun s h1 h2 => ?_, rfl⟩
  · subst hs; rfl
  · subst h1; simp [resolve_input, h2]
  · subst h1; simp [resolve_input, h2]

/-- C5 witness: a concrete override takes priority over a stored rewrite, and
the following step with no override resolves to the critique's suggestion. -/
theorem c5_input_priority_witness :
    resolve_input (TaskState.mk 0 [] (some "stored")) (AgentTask.mk "q") (some "o") =
      "o" ∧
    resolve_input
        (run_step (RetryAgentWorker.mk "p" 10 false [])
          (fun _ => HandlerResult.ok "ans") (fun _ _ _ => ResponseEval.mk true "nq" "")
          (TaskState.mk 0 [] (some "stored")) (AgentTask.mk "q") (some "o")).2
        (AgentTask.mk "q") none =
      (step_eval (RetryAgentWorker.mk "p" 10 false [])
          (fun _ => HandlerResult.ok "ans") (fun _ _ _ => ResponseEval.mk true "nq" "")
          (TaskState.mk 0 [] (some "stored")) (AgentTask.mk "q") (some "o")).new_question := by
  obtain ⟨hov, -, -, hnext⟩ := c5_input_priority (RetryAgentWorker.mk "p" 10 false [])
    (fun _ => HandlerResult.ok "ans") (fun _ _ _ => ResponseEval.mk true "nq" "")
    (TaskState.mk 0 [] (some "stored")) (AgentTask.mk "q") (some "o")
  exact ⟨hov "o" rfl, hnext⟩

/-- C6: A handler failure inside the Router is surfaced to the loop as an
ordinary error answer text: the response is that text, the pair is appended
to the transcript and fed to the critique like any other answer, and
`_run_step` behaves exactly as it would with a router that returned the same
text as a normal answer, so no hard fault is propagated to the caller. -/
theorem c6_handler_failure_absorbed (w : RetryAgentWorker) (router : Router)
    (critic : Critic) (st : TaskState) (task : AgentTask) (input : Option String)
    (err : String) :
    (router (resolve_input st task input) = HandlerResult.failure err →
      (run_step w router critic st task input).1.1.response = "Error: " ++ err ∧
      (run_step w router critic st task input).2.current_reasoning =
        st.current_reasoning ++
          [("user", resolve_input st task input),
            ("assistant", "Error: " ++ err)]) ∧
    run_step w router critic st task input =
      run_step w (fun q => HandlerResult.ok (router_answer router q)) critic st task
        input := by
  constructor
  · intro h
    have ha : router_answer router (resolve_input st task input) = "Error: " ++ err := by
      unfold router_answer
      rw [h]
    constructor
    · calc (run_step w router critic st task input).1.1.response
          = router_answer router (resolve_input st task input) := rfl
        _ = "Error: " ++ err := ha
    · rw [run_step_reasoning, ha]
  · rfl

/-- C6 witness: with a router whose handler fails with "boom", the step's
response is the error answer text and the transcript records it as the
assistant turn. -/
theorem c6_handler_failure_absorbed_witness :
    (run_step (RetryAgentWorker.mk "p" 10 false [])
        (fun _ => HandlerResult.failure "boom")
        (fun _ _ _ => ResponseEval.mk true "nq" "") (TaskState.mk 0 [] none)
        (AgentTask.mk "q") none).1.1.response = "Error: " ++ "boom" ∧
    (run_step (RetryAgentWorker.mk "p" 10 false [])
        (fun _ => HandlerResult.failure "boom")
        (fun _ _ _ => ResponseEval.mk true "nq" "") (TaskState.mk 0 [] none)
        (AgentTask.mk "q") none).2.current_reasoning =
      (TaskState.mk 0 [] none).current_reasoning ++
        [("user", resolve_input (TaskState.mk 0 [] none) (AgentTask.mk "q") none),
          ("assistant", "Error: " ++ "boom")] :=
  (c6_handler_failure_absorbed (RetryAgentWorker.mk "p" 10 false [])
    (fun _ => HandlerResult.failure "boom") (fun _ _ _ => ResponseEval.mk true "nq" "")
    (TaskState.mk 0 [] none) (AgentTask.mk "q") none "boom").1 rfl

/-- C7: After every `_run_step` invocation the state's "new_input" equals the
critique's suggested `new_question` from that invocation — overwritten once
per iteration, unconditionally, whatever `has_error` was. -/
theorem c7_new_input_overwritten (w : RetryAgentWorker) (router : Router)
    (critic : Critic) (st : TaskState) (task : AgentTask) (input : Option String) :
    (run_step w router critic st task input).2.new_input =
      some (step_eval w router critic st task input).new_question := rfl

/-- C8: Across state initialization and any number of `_run_step` invocations
the iteration counter "count" is monotonically non-decreasing (each step
leaves it unchanged, so it stays 0) and never exceeds a nonnegative
configured `max_iterations`. -/
theorem c8_count_monotone_bounded (w : RetryAgentWorker) (router : Router)
    (critic : Critic) (task : AgentTask) (k : Nat) (st : TaskState)
    (h : ReachableN w router critic task k st) (input : Option String)
    (hmax : 0 ≤ w.max_iterations) :
    st.count ≤ (run_step w router critic st task input).2.count ∧
    st.count ≤ w.max_iterations := by
  have h0 : st.count = 0 := reachable_count_zero h
  refine ⟨le_of_eq (run_step_count w router critic st task input).symm, ?_⟩
  rw [h0]
  exact hmax

/-- C8 witness: at the initial state of a worker with `max_iterations` 10 the
counter does not decrease across a step and is within the bound. -/
theorem c8_count_monotone_bounded_witness :
    (init_state (RetryAgentWorker.mk "p" 10 false []) (AgentTask.mk "q")).count ≤
      (run_step (RetryAgentWorker.mk "p" 10 false [])
        (fun _ => HandlerResult.ok "ans") (fun _ _ _ => ResponseEval.mk true "nq" "")
        (init_state (RetryAgentWorker.mk "p" 10 false []) (AgentTask.mk "q"))
        (AgentTask.mk "q") none).2.count ∧
    (init_state (RetryAgentWorker.mk "p" 10 false []) (AgentTask.mk "q")).count ≤
      (RetryAgentWorker.mk "p" 10 false []).max_iterations :=
  c8_count_monotone_bounded (RetryAgentWorker.mk "p" 10 false [])
    (fun _ => HandlerResult.ok "ans") (fun _ _ _ => ResponseEval.mk true "nq" "")
    (AgentTask.mk "q") 0 (init_state (RetryAgentWorker.mk "p" 10 false []) (AgentTask.mk "q"))
    ReachableN.init none (by decide)

/-- C9: Construction raises ValueError exactly when some element of the tool
list is not a query engine tool; when every tool is one, construction
succeeds and builds the router over exactly that tool list. -/
theorem c9_init_validates_tools (tools : List BaseTool) (prompt_str : String)
    (max_iterations : Int) (verbose : Bool) :
    ((∃ e, retry_agent_worker_init tools prompt_str max_iterations verbose =
        Except.error e) ↔
      ∃ t ∈ tools, is_query_engine_tool t = false) ∧
    ((∀ t ∈ tools, is_query_engine_tool t = true) →
      retry_agent_worker_init tools prompt_str max_iterations verbose =
        Except.ok (RetryAgentWorker.mk prompt_str max_iterations verbose tools)) := by
  constructor
  · constructor
    · rintro ⟨e, he⟩
      by_contra hall
      push_neg at hall
      have hok : validate_tools tools = Except.ok () :=
        (validate_tools_ok_iff tools).mpr (fun t ht => by
          have hne := hall t ht
          cases h' : is_query_engine_tool t
          · exact absurd h' hne
          · rfl)
      unfold retry_agent_worker_init at he
      rw [hok] at he
      exact Except.noConfusion he
    · rintro ⟨t, ht, hft⟩
      cases hv : validate_tools tools with
      | ok u =>
          cases u
          have := (validate_tools_ok_iff tools).mp hv t ht
          rw [hft] at this
          exact absurd this (by decide)
      | error e =>
          refine ⟨e, ?_⟩
          unfold retry_agent_worker_init
          rw [hv]
  · intro hall
    have hok : validate_tools tools = Except.ok () :=
      (validate_tools_ok_iff tools).mpr hall
    unfold retry_agent_worker_init
    rw [hok]

/-- C9 witness: construction over a single query engine tool succeeds and the
router is built over exactly that tool list. -/
theorem c9_init_validates_tools_witness :
    retry_agent_worker_init [BaseTool.queryEngineTool "sql"] "p" 10 false =
      Except.ok (RetryAgentWorker.mk "p" 10 false [BaseTool.queryEngineTool "sql"]) :=
  (c9_init_validates_tools [BaseTool.queryEngineTool "sql"] "p" 10 false).2
    (by decide)

/-- C10: No operation reads `max_iterations`: for two workers that differ only
in that field, `_initialize_state`, `_run_step` and `_finalize_task` produce
identical results and identical state updates on identical inputs. -/
theorem c10_max_iterations_never_read (w : RetryAgentWorker) (n : Int)
    (router : Router) (critic : Critic) (st : TaskState) (task : AgentTask)
    (input : Option String) :
    init_state (RetryAgentWorker.mk w.prompt_str n w.verbose w.router_tools) task =
      init_state w task ∧
    run_step (RetryAgentWorker.mk w.prompt_str n w.verbose w.router_tools) router critic
        st task input =
      run_step w router critic st task input ∧
    finalize_task (RetryAgentWorker.mk w.prompt_str n w.verbose w.router_tools) st =
      finalize_task w st :=
  ⟨rfl, rfl, rfl⟩
